import Mathlib

set_option linter.dupNamespace false

/-!
Shallow embedding of the `offchain-sdk` HTTP server wrapper (`server` package)
and worker-pool configuration (`worker` package), with theorems settling the
specification claims about them.

Conventions of the embedding:
* Go `panic` is modelled by `Option`/an explicit outcome constructor (`none` /
  `panicked` means the Go code panics at that point).
* The injected logger capability is modelled by returning the list of log
  events an operation emits, instead of performing them.
* `time.Duration` constants are modelled in whole seconds (the source only
  uses `10 * time.Second` and `5 * time.Second`).
-/

set_option autoImplicit false

/-! ## Worker-pool configuration (`src/worker/config.go`) -/

/-- Model of `pond.ResizingStrategy` policy identities: the pond library
exposes exactly the three policy constructors `pond.Eager()`, `pond.Lazy()`
and `pond.Balanced()`, which are distinct resizing policies. -/
inductive ResizingStrategy where
  | eager
  | lazy
  | balanced
  deriving DecidableEq, Repr

/-- Embedding of `worker.PoolConfig` (src/worker/config.go lines 6-23).
Field names follow the Go struct. -/
structure PoolConfig where
  Name : String
  PrometheusPrefix : String
  MinWorkers : Int
  MaxWorkers : Int
  ResizingStrategy : String
  MaxQueuedJobs : Int
  deriving DecidableEq, Repr

/-- Embedding of `worker.DefaultPoolConfig` (src/worker/config.go lines 26-35). -/
def DefaultPoolConfig : PoolConfig :=
  { Name := "default"
    PrometheusPrefix := "default"
    MinWorkers := 4
    MaxWorkers := 32
    ResizingStrategy := "balanced"
    MaxQueuedJobs := 100 }

/-- Embedding of `worker.ResizerFromString` (src/worker/config.go lines 38-49).
The Go `switch` is a sequential comparison against the three recognized names;
the `default` branch executes `panic("invalid resizer name")`, modelled as
`none`. -/
def ResizerFromString (name : String) : Option ResizingStrategy :=
  match name with
  | "eager" => some .eager
  | "lazy" => some .lazy
  | "balanced" => some .balanced
  | _ => none

/-! ## HTTP server wrapper (`src/unnamed/part_000`, package `server`) -/

/-- Errors of the Go runtime as seen by this package: `http.ErrServerClosed`
is the sentinel returned by `ListenAndServe` after an intentional `Shutdown`;
every other error is carried opaquely. -/
inductive GoError where
  | errServerClosed
  | other (msg : String)
  deriving DecidableEq, Repr

/-- A leveled structured log call on the injected `log.Logger` capability
(`Info` / `Error` with a message; the error value is carried for the
`Error` calls the source makes). -/
inductive LogEvent where
  | info (msg : String)
  | error (msg : String) (err : GoError)
  deriving DecidableEq, Repr

/-- Model of the `Config` consumed by the server: the source reads
`s.cfg.HTTP.Host` and `s.cfg.HTTP.Port`. -/
structure HTTPConfig where
  Host : String
  Port : Nat
  deriving DecidableEq, Repr

/-- Configuration struct holding the HTTP sub-configuration. -/
structure Config where
  HTTP : HTTPConfig
  deriving DecidableEq, Repr

/-- `DefaultReadHeaderTimeout` (src/unnamed/part_000 line 15): 10 seconds,
modelled in whole seconds. -/
def DefaultReadHeaderTimeout : Nat := 10

/-- Model of the underlying `*http.Server` handle created lazily by `Start`:
its bound address and the fixed header-read timeout. -/
structure ServerHandle where
  Addr : String
  ReadHeaderTimeoutSeconds : Nat
  deriving DecidableEq, Repr

/-- Model of `net/http.ServeMux`: the registry of exact-path registrations.
Handler behaviour is opaque, so the registry is polymorphic in the handler
type `α`. Entries are kept in registration order. -/
structure ServeMux (α : Type) where
  entries : List (String × α)
  deriving DecidableEq, Repr

/-- Model of `(*http.ServeMux).Handle` per the Go standard library: it panics
("http: multiple registrations for ...") when the pattern is already
registered, otherwise it records the new entry. `none` models the panic. -/
def ServeMux.handle {α : Type} (mux : ServeMux α) (path : String) (h : α) :
    Option (ServeMux α) :=
  if mux.entries.any (fun e => e.1 == path) then none
  else some ⟨mux.entries ++ [(path, h)]⟩

/-- Model of `ServeMux` dispatch for an exact-path request: the handler that
serves requests to `path`, if any is registered. -/
def ServeMux.handlerFor {α : Type} (mux : ServeMux α) (path : String) :
    Option α :=
  (mux.entries.find? (fun e => e.1 == path)).map Prod.snd

/-- Embedding of `server.Handler` (src/unnamed/part_000 lines 18-21): a path
paired with an opaque handler capability. -/
structure Handler (α : Type) where
  Path : String
  Handler : α

/-- Embedding of `server.Server` (src/unnamed/part_000 lines 26-33).
`srv` is the lazily-created network server handle (`nil` before `Start`,
hence `Option`); `closerDone` is the state of the `sync.Once` shutdown
guard (`closer`), `false` until the guard fires. Middlewares over opaque
handlers of type `α` are functions `α → α`. -/
structure Server (α : Type) where
  cfg : Config
  mux : ServeMux α
  srv : Option ServerHandle
  closerDone : Bool
  middlewares : List (α → α)

/-- Embedding of `server.New` (src/unnamed/part_000 lines 36-43): fresh mux,
no srv handle, guard not fired, initial middlewares as given. The logger
capability is left implicit (log calls are modelled as outputs of the
operations that make them). -/
def New {α : Type} (cfg : Config) (middlewares : List (α → α)) : Server α :=
  { cfg := cfg
    mux := ⟨[]⟩
    srv := none
    closerDone := false
    middlewares := middlewares }

/-- Embedding of `(*Server).RegisterHandler` (src/unnamed/part_000 lines
47-49): `s.mux.Handle(h.Path, h.Handler)`; propagates the mux panic as
`none`. -/
def Server.RegisterHandler {α : Type} (s : Server α) (h : Handler α) :
    Option (Server α) :=
  (s.mux.handle h.Path h.Handler).map (fun m => { s with mux := m })

/-- Embedding of `(*Server).RegisterMiddleware` (src/unnamed/part_000 lines
52-54): appends to the ordered middleware sequence. -/
def Server.RegisterMiddleware {α : Type} (s : Server α) (m : α → α) :
    Server α :=
  { s with middlewares := s.middlewares ++ [m] }

/-- The loop of `applyMiddlewares` (src/unnamed/part_000 lines 58-64):
`for i := len(ms) - 1; i >= 0; i-- { h = ms[i](h) }`, written with the
remaining lower index range as fuel: at fuel `i + 1` the body applies
`ms[i]` and continues with fuel `i`. -/
def applyMiddlewaresLoop {α : Type} (ms : List (α → α)) : Nat → α → α
  | 0, h => h
  | i + 1, h => applyMiddlewaresLoop ms i ((ms.getD i id) h)

/-- Embedding of `(*Server).applyMiddlewares`: starts from the base handler
(`s.mux` in the source) and runs the loop over the whole middleware slice.
Stated over an arbitrary middleware list and base handler; the method applies
it to `s.middlewares` and the mux. -/
def applyMiddlewares {α : Type} (ms : List (α → α)) (base : α) : α :=
  applyMiddlewaresLoop ms ms.length base

/-- Modelled from the spec: the composition formula
`m0(m1(...mn-1(H)))` that section 4.1 requires of the middleware chain
builder, by structural recursion on the registered sequence. -/
def composeSpecFormula {α : Type} : List (α → α) → α → α
  | [], base => base
  | m :: ms, base => m (composeSpecFormula ms base)

/-- Modelled from the spec: the composition in which the middleware
registered LAST is the OUTERMOST wrapper, i.e. `mn-1(...(m1(m0(H))))`,
the reading section 4.1's design rule demands. -/
def composeLastOutermost {α : Type} : List (α → α) → α → α
  | [], base => base
  | m :: ms, base => composeLastOutermost ms (m base)

/-- Observable outcome of one `Stop` invocation: the guard was already fired
(silent no-op), the guarded body dereferenced a nil `srv` handle (Go panic),
or the guarded body ran a shutdown request with its grace-period deadline in
seconds and the log call it made. -/
inductive StopOutcome where
  | noop
  | panicked
  | shutdown (graceSeconds : Nat) (log : LogEvent)
  deriving DecidableEq, Repr

/-- Embedding of `(*Server).Stop` (src/unnamed/part_000 lines 88-100).
`s.closer.Do(f)` runs `f` only when the guard has not fired and marks the
guard fired (sync.Once marks done even when `f` panics). The body creates a
5-second deadline, calls `s.srv.Shutdown(ctx)` — a nil-pointer dereference
when `srv` is nil — and logs the drain error or success. The environment's
answer to the Shutdown call is the parameter `drainErr` (`none` = drained
successfully). Returns the new server state and the observable outcome. -/
def Server.stop {α : Type} (s : Server α) (drainErr : Option GoError) :
    Server α × StopOutcome :=
  if s.closerDone then (s, .noop)
  else
    let s' := { s with closerDone := true }
    match s.srv with
    | none => (s', .panicked)
    | some _ =>
      match drainErr with
      | some e => (s', .shutdown 5 (.error "HTTP server shutdown error" e))
      | none => (s', .shutdown 5 (.info "HTTP server gracefully stopped"))

/-- The synchronous prefix of `(*Server).Start` (src/unnamed/part_000 lines
68-74): build the address from configuration and install the underlying
network server handle with the fixed header-read timeout. -/
def Server.startInit {α : Type} (s : Server α) : Server α :=
  { s with
    srv := some
      { Addr := s.cfg.HTTP.Host ++ ":" ++ toString s.cfg.HTTP.Port
        ReadHeaderTimeoutSeconds := DefaultReadHeaderTimeout } }

/-- The log calls made by the accept-loop goroutine of `Start`
(src/unnamed/part_000 lines 76-81), as a function of the error with which
`ListenAndServe` returned: the startup Info line, then an Error line unless
the error is `http.ErrServerClosed`. -/
def serveGoroutineLogs (serveErr : GoError) : List LogEvent :=
  .info "Starting HTTP server" ::
    (if serveErr = .errServerClosed then [] else
      [.error "HTTP server error" serveErr])

/-- Events the blocked caller of `Start` can race against: the accept-loop
goroutine terminating with an error, or the context's cancellation signal
firing. -/
inductive StartEvent where
  | serveErrored (e : GoError)
  | ctxDone
  deriving DecidableEq, Repr

/-- Whether `Start` has returned after the given sequence of events: the
caller blocks on `<-ctx.Done()` alone (src/unnamed/part_000 lines 83-85), so
accept-loop errors are skipped and only a `ctxDone` event unblocks it (after
which it runs `s.Stop()` and returns). -/
def startReturned : List StartEvent → Bool
  | [] => false
  | .serveErrored _ :: rest => startReturned rest
  | .ctxDone :: _ => true

/-- A concrete configuration used by the concrete evaluation theorems. -/
def cfg₀ : Config := ⟨⟨"localhost", 8080⟩⟩

/-- A freshly constructed server over `Nat`-labelled opaque handlers. -/
def demoServer : Server Nat := New cfg₀ []

/-- `demoServer` after one successful registration of handler `1` at "/x". -/
def demoServerReg : Server Nat := { demoServer with mux := ⟨[("/x", 1)]⟩ }

/-- `demoServer` after the synchronous prefix of `Start` installed the
network server handle. -/
def startedServer : Server Nat := demoServer.startInit

/-- C5: for every strategy name outside {"eager", "lazy", "balanced"},
`ResizerFromString` panics (fails fatally, modelled as `none`) instead of
returning any substitute policy. -/
theorem resizerFromString_unknown_panics (name : String)
    (h1 : name ≠ "eager") (h2 : name ≠ "lazy") (h3 : name ≠ "balanced") :
    ResizerFromString name = none := by
  unfold ResizerFromString
  split <;> simp_all

/-- Witness for C5 at the concrete unknown name "bogus". -/
theorem resizerFromString_unknown_panics_witness :
    ResizerFromString "bogus" = none :=
  resizerFromString_unknown_panics "bogus" (by decide) (by decide) (by decide)

/-- C7: the three recognized strategy names resolve to the three distinct
policy identities (eager, lazy, balanced respectively), and resolution is a
deterministic function of the name (`ResizerFromString` is a function, so
determinism is by construction). -/
theorem resizerFromString_known_distinct :
    ResizerFromString "eager" = some .eager ∧
    ResizerFromString "lazy" = some .lazy ∧
    ResizerFromString "balanced" = some .balanced ∧
    ResizingStrategy.eager ≠ ResizingStrategy.lazy ∧
    ResizingStrategy.eager ≠ ResizingStrategy.balanced ∧
    ResizingStrategy.lazy ≠ ResizingStrategy.balanced := by
  refine ⟨rfl, rfl, rfl, ?_, ?_, ?_⟩ <;> decide

/-- Counterexample for C6: the claim says the five listed fields are the only
defaults `DefaultPoolConfig` defines, but the returned value also explicitly
defaults `PrometheusPrefix` to "default" (the Go zero value for the field
would be the empty string). -/
theorem defaultPoolConfig_prometheus_also_defaulted :
    PoolConfig.PrometheusPrefix DefaultPoolConfig = "default" ∧
    ("default" : String) ≠ "" := by
  exact ⟨rfl, by decide⟩

/-- C6 (amended): `DefaultPoolConfig()` returns name="default", MinWorkers=4,
MaxWorkers=32, ResizingStrategy="balanced", MaxQueuedJobs=100, and in addition
PrometheusPrefix="default"; these six fields are all its defaults. -/
theorem defaultPoolConfig_fields :
    DefaultPoolConfig.Name = "default" ∧
    DefaultPoolConfig.MinWorkers = 4 ∧
    DefaultPoolConfig.MaxWorkers = 32 ∧
    DefaultPoolConfig.ResizingStrategy = "balanced" ∧
    DefaultPoolConfig.MaxQueuedJobs = 100 ∧
    PoolConfig.PrometheusPrefix DefaultPoolConfig = "default" :=
  ⟨rfl, rfl, rfl, rfl, rfl, rfl⟩

/-- C10: `DefaultPoolConfig()` additionally sets PrometheusPrefix to
"default", a defaulted field observable on the returned configuration value. -/
theorem defaultPoolConfig_prometheus_default :
    PoolConfig.PrometheusPrefix DefaultPoolConfig = "default" :=
  rfl

/-! ## Middleware composition (claim C1) -/

/-- Peeling one middleware off the back of the sequence inside the spec
formula: `composeSpecFormula (l ++ [m]) base = composeSpecFormula l (m base)`. -/
theorem composeSpecFormula_append_singleton {α : Type} (l : List (α → α))
    (m : α → α) (base : α) :
    composeSpecFormula (l ++ [m]) base = composeSpecFormula l (m base) := by
  induction l with
  | nil => rfl
  | cons a l ih => simp [composeSpecFormula, ih]

/-- The loop with fuel `i ≤ length` computes the spec formula of the first
`i` middlewares. -/
theorem applyMiddlewaresLoop_eq_take {α : Type} (ms : List (α → α)) :
    ∀ i : Nat, i ≤ ms.length → ∀ base : α,
      applyMiddlewaresLoop ms i base = composeSpecFormula (ms.take i) base := by
  intro i
  induction i with
  | zero => intro _ base; rfl
  | succ i ih =>
    intro hle base
    have hi : i < ms.length := Nat.lt_of_succ_le hle
    have htake : ms.take (i + 1) = ms.take i ++ [ms.getD i id] := by
      rw [List.take_succ]
      simp [List.getElem?_eq_getElem hi, List.getD_eq_getElem?_getD,
        Option.toList]
    rw [applyMiddlewaresLoop, htake, composeSpecFormula_append_singleton,
      ih (Nat.le_of_lt hi)]

/-- The composition the source's loop builds is exactly the spec formula
`m0(m1(...mn-1(H)))`. -/
theorem applyMiddlewares_eq_composeSpecFormula {α : Type}
    (ms : List (α → α)) (base : α) :
    applyMiddlewares ms base = composeSpecFormula ms base := by
  have h := applyMiddlewaresLoop_eq_take ms ms.length (Nat.le_refl _) base
  simpa [applyMiddlewares, List.take_length] using h

/-- C1 (amended): the composed handler equals the formula
`m0(m1(...mn-1(H)))`, and consequently the middleware registered FIRST is
the outermost wrapper — prepending a middleware to the registration order
wraps it around the whole composition, so it sees the request first. -/
theorem applyMiddlewares_first_registered_outermost {α : Type}
    (ms : List (α → α)) (base : α) :
    applyMiddlewares ms base = composeSpecFormula ms base ∧
    ∀ m : α → α, applyMiddlewares (m :: ms) base = m (applyMiddlewares ms base) := by
  refine ⟨applyMiddlewares_eq_composeSpecFormula ms base, fun m => ?_⟩
  rw [applyMiddlewares_eq_composeSpecFormula, applyMiddlewares_eq_composeSpecFormula]
  rfl

/-- Counterexample for C1: with two trace-recording middlewares (labels 0
and 1, each prepending its label when it sees the request), the composed
handler's trace is [0, 1] — middleware 0, registered first, sees the request
first — whereas the claim's "registered last is outermost" reading
(`composeLastOutermost`) would produce [1, 0]. -/
theorem applyMiddlewares_last_not_outermost :
    applyMiddlewares [fun t => 0 :: t, fun t => 1 :: t] ([] : List Nat) = [0, 1] ∧
    composeLastOutermost [fun t => 0 :: t, fun t => 1 :: t] ([] : List Nat) = [1, 0] ∧
    ([0, 1] : List Nat) ≠ [1, 0] :=
  ⟨rfl, rfl, by decide⟩

/-! ## Registration (claim C3) -/

/-- Appending an element satisfying the predicate makes `any` true. -/
theorem any_append_singleton {α : Type} (l : List α) (x : α) (f : α → Bool)
    (hx : f x = true) : (l ++ [x]).any f = true := by
  induction l with
  | nil => simp [hx]
  | cons a l ih => simp [List.any_cons, ih]

/-- If no element of `l` satisfies `f`, `find?` on `l ++ [x]` finds `x`
when `x` satisfies `f`. -/
theorem find?_append_singleton {α : Type} (l : List α) (x : α) (f : α → Bool)
    (hl : l.any f = false) (hx : f x = true) :
    (l ++ [x]).find? f = some x := by
  induction l with
  | nil => simp [List.find?, hx]
  | cons a l ih =>
    simp only [List.any_cons, Bool.or_eq_false_iff] at hl
    simp [List.find?, hl.1, ih hl.2]

/-- C3 (amended): registering a second handler for an already-registered
path panics (the mux rejects duplicate registrations, modelled as `none`);
the first registration stays in place and keeps serving the path — last
registration does not win. -/
theorem registerHandler_same_path_panics {α : Type} (s s₁ : Server α)
    (p : String) (h₁ h₂ : α)
    (hreg : s.RegisterHandler ⟨p, h₁⟩ = some s₁) :
    s₁.RegisterHandler ⟨p, h₂⟩ = none ∧ s₁.mux.handlerFor p = some h₁ := by
  unfold Server.RegisterHandler ServeMux.handle at hreg ⊢
  by_cases hfresh : s.mux.entries.any (fun e => e.1 == p) = true
  · simp [hfresh] at hreg
  · have hfresh' : s.mux.entries.any (fun e => e.1 == p) = false :=
      Bool.not_eq_true _ ▸ hfresh
    simp only [hfresh', Bool.false_eq_true, if_false, Option.map_some',
      Option.some.injEq] at hreg
    subst hreg
    constructor
    · simp [any_append_singleton _ _ _ (by simp : ((p, h₁).1 == p) = true)]
    · unfold ServeMux.handlerFor
      rw [find?_append_singleton _ _ _ hfresh' (by simp)]
      rfl

/-- Witness for C3 (amended) at a concrete server: after registering handler
`1` at "/x", registering handler `2` at "/x" panics and "/x" is still served
by handler `1`. -/
theorem registerHandler_same_path_panics_witness :
    demoServerReg.RegisterHandler ⟨"/x", 2⟩ = none ∧
    demoServerReg.mux.handlerFor "/x" = some 1 :=
  registerHandler_same_path_panics demoServer demoServerReg "/x" 1 2 rfl

/-- Counterexample for C3: at the concrete path "/x" with handlers 1 and 2,
the first registration succeeds and the second registration for the same
path panics (`none`), so requests are not served by the second handler and
the no-panic part of the claim fails. -/
theorem registerHandler_counterexample :
    demoServer.RegisterHandler ⟨"/x", 1⟩ = some demoServerReg ∧
    demoServerReg.RegisterHandler ⟨"/x", 2⟩ = none :=
  ⟨rfl, rfl⟩

/-! ## Shutdown guard (claims C2, C4, C8) -/

/-- After any `Stop` invocation the `sync.Once` guard is fired. -/
theorem closerDone_after_stop {α : Type} (s : Server α) (d : Option GoError) :
    ((s.stop d).1).closerDone = true := by
  unfold Server.stop
  by_cases h : s.closerDone
  · simp [h]
  · cases hs : s.srv <;> cases d <;> simp [h, hs]

/-- Once the guard is fired, `Stop` is a silent no-op: same state, `noop`
outcome, whatever the environment would answer to a drain request. -/
theorem stop_noop_of_closerDone {α : Type} (s : Server α) (d : Option GoError)
    (h : s.closerDone = true) : s.stop d = (s, .noop) := by
  unfold Server.stop
  simp [h]

/-- C4: the guarded shutdown body executes at most once — after any first
`Stop` invocation, a subsequent `Stop` returns the state unchanged with the
silent `noop` outcome (no log, no shutdown request, no panic), for every
drain-environment answer. -/
theorem stop_runs_at_most_once {α : Type} (s : Server α)
    (d d' : Option GoError) :
    ((s.stop d).1).stop d' = ((s.stop d).1, StopOutcome.noop) :=
  stop_noop_of_closerDone _ _ (closerDone_after_stop s d)

/-- C2: evaluating `Stop` on a freshly constructed server (Start never ran,
so `srv` is still nil) reaches `s.srv.Shutdown` with a nil `*http.Server`
and panics — the claim's required no-panic behavior does not hold. -/
theorem stop_before_start_panics :
    ((New cfg₀ ([] : List (Nat → Nat))).stop none).2 = StopOutcome.panicked :=
  rfl

/-- C8: when the guard has not fired and the server handle exists, the
guarded body requests shutdown under a 5-second grace deadline; it logs the
specific drain error on failure and an Info line on success, and no
drain-environment answer makes it panic. -/
theorem guarded_shutdown_bounded_and_logged {α : Type} (s : Server α)
    (hdl : ServerHandle) (hsrv : s.srv = some hdl)
    (hguard : s.closerDone = false) :
    (∀ e : GoError, (s.stop (some e)).2 =
        .shutdown 5 (.error "HTTP server shutdown error" e)) ∧
    (s.stop none).2 = .shutdown 5 (.info "HTTP server gracefully stopped") ∧
    (∀ d : Option GoError, (s.stop d).2 ≠ .panicked) := by
  unfold Server.stop
  refine ⟨fun e => by simp [hguard, hsrv], by simp [hguard, hsrv], fun d => ?_⟩
  cases d <;> simp [hguard, hsrv]

/-- Witness for C8 on a concretely started server with a concrete drain
error: the outcome is the 5-second-bounded shutdown logging that error. -/
theorem guarded_shutdown_witness :
    (startedServer.stop (some (GoError.other "context deadline exceeded"))).2 =
      .shutdown 5 (.error "HTTP server shutdown error"
        (GoError.other "context deadline exceeded")) :=
  (guarded_shutdown_bounded_and_logged startedServer
    ⟨"localhost" ++ ":" ++ toString 8080, DefaultReadHeaderTimeout⟩
    rfl rfl).1 _

/-! ## Accept-loop failure policy (claim C9) -/

/-- C9: an accept-loop error other than `http.ErrServerClosed` is logged by
the goroutine via the injected logger; `http.ErrServerClosed` itself is not
logged as an error; and `Start` returns exactly when the cancellation signal
fires — serve errors alone never unblock it. -/
theorem accept_loop_logged_never_unblocks :
    (∀ e : GoError, e ≠ .errServerClosed →
        serveGoroutineLogs e =
          [.info "Starting HTTP server", .error "HTTP server error" e]) ∧
    serveGoroutineLogs .errServerClosed = [.info "Starting HTTP server"] ∧
    (∀ events : List StartEvent,
        startReturned events = true ↔ StartEvent.ctxDone ∈ events) := by
  refine ⟨fun e he => by simp [serveGoroutineLogs, he], rfl, fun events => ?_⟩
  induction events with
  | nil => simp [startReturned]
  | cons ev rest ih => cases ev <;> simp [startReturned, ih]

/-- Witness for C9: a concrete bind failure is logged after the startup
line, and a trace containing only that serve error followed by cancellation
shows `Start` returning on the cancellation event. -/
theorem accept_loop_witness :
    serveGoroutineLogs (GoError.other "listen tcp: address in use") =
      [.info "Starting HTTP server",
       .error "HTTP server error" (GoError.other "listen tcp: address in use")] ∧
    startReturned
      [StartEvent.serveErrored (GoError.other "listen tcp: address in use"),
       StartEvent.ctxDone] = true :=
  ⟨accept_loop_logged_never_unblocks.1 _ (by decide),
   (accept_loop_logged_never_unblocks.2.2 _).mpr (by decide)⟩
